import Mathlib

/-!
Verification of the trace classification and enrichment engine of
elastic/opentelemetry-lib (enrichments/trace/internal/elastic).

The repository snapshot ships the engine's test suite
(`TestElasticTransactionEnrich`, `TestElasticSpanEnrich`, `TestSpanEventEnrich`,
`TestIsElasticTransaction`) but not the engine source itself, so the engine is
modelled here from the specification (spec.md §3-§4.6); wherever the
specification's words are ambiguous or conflict with the repository's own test
expectations, the behaviour pinned by the tests is modelled and the doc comment
of the definition says so.

Telemetry values: pdata attribute maps are ordered key/value collections with
upsert semantics; they are modelled as association lists with in-place
replacement.  The only floating-point values produced by the engine are the
representative counts 2^p (p ≤ 63), all exactly representable in IEEE float64,
so they are modelled by their exact natural-number value.
-/

namespace ElasticEnrich

/-- Attribute values as stored in a pdata attribute map.  `double` carries the
exact integer value: every double the engine writes is a power of two ≤ 2^63,
exactly representable in float64.  `strList` models a slice value holding
strings (used for the inferred-child span-id list). -/
inductive AttrVal where
  | str (s : String)
  | int (i : Int)
  | bool (b : Bool)
  | double (n : Nat)
  | strList (l : List String)
deriving DecidableEq, Repr

/-- Go typed accessor `Value.Str`: returns the string content, or "" when the
value has a different type. -/
def AttrVal.asStr : AttrVal → String
  | .str s => s
  | _ => ""

/-- Go typed accessor `Value.Int`: returns the integer content, or 0 when the
value has a different type. -/
def AttrVal.asInt : AttrVal → Int
  | .int i => i
  | _ => 0

/-- Go typed accessor `Value.Bool`: returns the boolean content, or false when
the value has a different type. -/
def AttrVal.asBool : AttrVal → Bool
  | .bool b => b
  | _ => false

/-- An ordered attribute map (pdata `pcommon.Map`): association list, first
occurrence of a key is its binding. -/
abbrev AttrMap := List (String × AttrVal)

/-- pdata `Map.Put*`: upsert — replace the value of an existing key in place,
otherwise append the new entry at the end. -/
def putAttr : AttrMap → String → AttrVal → AttrMap
  | [], k, v => [(k, v)]
  | (k₀, v₀) :: rest, k, v =>
    if k₀ == k then (k, v) :: rest else (k₀, v₀) :: putAttr rest k v

/-- OTel span kind. -/
inductive SpanKind where
  | unspecified
  | internal
  | server
  | client
  | producer
  | consumer
deriving DecidableEq, Repr

/-- OTel span status code. -/
inductive StatusCode where
  | unset
  | ok
  | error
deriving DecidableEq, Repr

/-- A span link: target span identifier (8 bytes) and its own attribute map. -/
structure SpanLink where
  spanId : List Nat
  attributes : AttrMap
deriving DecidableEq, Repr

/-- A span event: name, timestamp (nanoseconds) and attribute map. -/
structure SpanEvent where
  name : String
  timestampNs : Nat
  attributes : AttrMap
deriving DecidableEq, Repr

/-- The span data model used by the engine (spec.md §3): identifier, parent
identifier (all-zero bytes meaning absent, as in pdata `SpanID.IsEmpty`), kind,
start/end timestamps in nanoseconds, status code, W3C trace-state string, span
flags word, attribute map, links and events. -/
structure Span where
  name : String
  spanId : List Nat
  parentSpanId : List Nat
  kind : SpanKind
  startTimestampNs : Nat
  endTimestampNs : Nat
  statusCode : StatusCode
  traceState : String
  flags : Nat
  attributes : AttrMap
  events : List SpanEvent
  links : List SpanLink
deriving DecidableEq, Repr

/-- pdata `SpanID.IsEmpty`: an identifier is empty when all its bytes are 0. -/
def isEmptySpanId (id : List Nat) : Bool :=
  id.all (fun b => b == 0)

/-- Lower-case hex digit for a value < 16. -/
def hexDigit (n : Nat) : Char :=
  if n < 10 then Char.ofNat (48 + n) else Char.ofNat (87 + n)

/-- Two lower-case hex digits of one byte. -/
def hexByte (b : Nat) : List Char :=
  [hexDigit (b / 16 % 16), hexDigit (b % 16)]

/-- pdata `SpanID.String`: lower-case hex encoding of the 8 identifier bytes,
and the empty string for the all-zero (absent) identifier. -/
def hexSpanId (id : List Nat) : String :=
  if isEmptySpanId id then "" else ⟨id.flatMap hexByte⟩

/-- Split a character list at every occurrence of the separator. -/
def splitOnChar (c : Char) : List Char → List (List Char)
  | [] => [[]]
  | x :: xs =>
    match splitOnChar c xs with
    | [] => if x == c then [[], []] else [[x]]
    | y :: ys => if x == c then [] :: y :: ys else (x :: y) :: ys

/-- Split a character list at the first occurrence of the separator, returning
the part before and the part after it (none when the separator is absent). -/
def splitFirst (c : Char) : List Char → Option (List Char × List Char)
  | [] => none
  | x :: xs =>
    if x == c then some ([], xs)
    else (splitFirst c xs).map (fun p => (x :: p.1, p.2))

/-- Decimal digit parser: `some n` for a nonempty all-digit list, else none. -/
def digitsToNat : List Char → Option Nat
  | [] => none
  | l => go l 0
where
  go : List Char → Nat → Option Nat
  | [], acc => some acc
  | c :: cs, acc =>
    if c.toNat ≥ 48 && c.toNat ≤ 57 then go cs (acc * 10 + (c.toNat - 48))
    else none

/-- Look up the value of `key` in a separator-structured string: entries are
separated by `entrySep`, each entry is `key kvSep value`; the first entry whose
key matches wins. -/
def findKeyed (entrySep kvSep : Char) (key : List Char) (s : List Char) :
    Option (List Char) :=
  (splitOnChar entrySep s).findSome? fun entry =>
    match splitFirst kvSep entry with
    | some (k, v) => if k == key then some v else none
    | none => none

/-- Modelled from the spec: §4.1 TraceState Parser.  The engine source being
absent from the snapshot, the parser is taken from the spec's words: look for
the vendor segment keyed `ot` in the W3C trace-state (entries separated by
`,`, key and value separated by `=`), then for the `p` sub-value inside it
(sub-entries separated by `;`, key and value separated by `:`); `some p` when
a decimal integer is found, none otherwise. -/
def parsePValue (traceState : String) : Option Nat :=
  match findKeyed ',' '=' ['o', 't'] traceState.data with
  | some otValue =>
    match findKeyed ';' ':' ['p'] otValue with
    | some pv => digitsToNat pv
    | none => none
  | none => none

/-- Modelled from the spec: §4.1.  `representative_count = 2^p` when the
trace-state carries a valid OpenTelemetry `p` value between 0 and 63 (the
reference parses it with 6-bit `strconv.ParseUint`), else 1; malformed or
missing trace-state is not an error and defaults to 1. -/
def getRepresentativeCount (traceState : String) : Nat :=
  match parsePValue traceState with
  | some p => if p ≤ 63 then 2 ^ p else 1
  | none => 1

/-- Look up a key in an attribute map (pdata `Map.Get`). -/
def getAttr (attrs : AttrMap) (k : String) : Option AttrVal :=
  List.lookup k attrs

/-- String attribute content: the typed `Str` accessor of the entry, or ""
when the key is absent. -/
def getAttrStr (attrs : AttrMap) (k : String) : String :=
  match getAttr attrs k with
  | some v => v.asStr
  | none => ""

/-- Integer attribute content: the typed `Int` accessor of the entry, or 0
when the key is absent. -/
def getAttrInt (attrs : AttrMap) (k : String) : Int :=
  match getAttr attrs k with
  | some v => v.asInt
  | none => 0

/-- Modelled from the spec: the snapshot over the span's semantic-convention
attributes that §4.2-§4.4 read (the engine source's extraction pass is absent
from the snapshot).  Presence booleans record that a key of the family was
present, mirroring the reference's per-family `is*` flags; values are read
with the typed accessors which default on a type mismatch. -/
structure SpanContext where
  peerService : String
  serverAddress : String
  serverPort : Int
  netPeerName : String
  netPeerPort : Int
  messagingSystem : String
  messagingDestinationName : String
  messagingDestinationTemp : Bool
  isMessaging : Bool
  httpStatusSet : Bool
  httpStatusCode : Int
  urlFull : String
  urlDomain : String
  urlPort : Int
  grpcStatusSet : Bool
  grpcStatusCode : Int
  rpcSystem : String
  rpcService : String
  isRPC : Bool
  dbSystem : String
  isDB : Bool
  genAiSystem : String
  isGenAi : Bool
deriving DecidableEq, Repr

/-- Modelled from the spec: attribute extraction for §4.2-§4.4.  The HTTP
status code prefers the current semantic-convention key
`http.response.status_code` over the deprecated `http.status_code` (§4.2
rule 1); `url.full` falls back to the deprecated `http.url` (§4.4 rule 2).
The messaging family is triggered by any of its keys (pinned by test
`messaging_destination`, where `messaging.destination.name` alone yields span
type "messaging"); the RPC family by any of `rpc.grpc.status_code`,
`rpc.system`, `rpc.service` (pinned by tests `rpc_span_grpc`,
`rpc_span_system`, `rpc_span_service`). -/
def extractSpanContext (s : Span) : SpanContext :=
  let a := s.attributes
  let httpCur := getAttr a "http.response.status_code"
  let httpDep := getAttr a "http.status_code"
  let url := match getAttr a "url.full" with
    | some v => v.asStr
    | none => getAttrStr a "http.url"
  { peerService := getAttrStr a "peer.service"
    serverAddress := getAttrStr a "server.address"
    serverPort := getAttrInt a "server.port"
    netPeerName := getAttrStr a "net.peer.name"
    netPeerPort := getAttrInt a "net.peer.port"
    messagingSystem := getAttrStr a "messaging.system"
    messagingDestinationName := getAttrStr a "messaging.destination.name"
    messagingDestinationTemp :=
      match getAttr a "messaging.destination.temporary" with
      | some v => v.asBool
      | none => false
    isMessaging := (getAttr a "messaging.system").isSome
      || (getAttr a "messaging.destination.name").isSome
      || (getAttr a "messaging.destination.temporary").isSome
    httpStatusSet := httpCur.isSome || httpDep.isSome
    httpStatusCode :=
      match httpCur with
      | some v => v.asInt
      | none => match httpDep with
        | some v => v.asInt
        | none => 0
    urlFull := url
    urlDomain := getAttrStr a "url.domain"
    urlPort := getAttrInt a "url.port"
    grpcStatusSet := (getAttr a "rpc.grpc.status_code").isSome
    grpcStatusCode := getAttrInt a "rpc.grpc.status_code"
    rpcSystem := getAttrStr a "rpc.system"
    rpcService := getAttrStr a "rpc.service"
    isRPC := (getAttr a "rpc.grpc.status_code").isSome
      || (getAttr a "rpc.system").isSome || (getAttr a "rpc.service").isSome
    dbSystem := getAttrStr a "db.system"
    isDB := (getAttr a "db.system").isSome
    genAiSystem := getAttrStr a "gen_ai.system"
    isGenAi := (getAttr a "gen_ai.system").isSome }

/-- Modelled from the spec: §4.3.  A span is a transaction iff it has no
parent span, or its span flags indicate the parent context both carries and
sets the "is remote" bit (`SPAN_FLAGS_CONTEXT_HAS_IS_REMOTE_MASK` = 0x100,
`SPAN_FLAGS_CONTEXT_IS_REMOTE_MASK` = 0x200), or the parent-remote bit is
absent/unset while the span kind is Server or Consumer. -/
def isElasticTransaction (s : Span) : Bool :=
  isEmptySpanId s.parentSpanId
  || (s.flags &&& 0x100 != 0 && s.flags &&& 0x200 != 0)
  || (s.flags &&& 0x200 == 0
      && (s.kind == SpanKind.server || s.kind == SpanKind.consumer))

/-- Modelled from the spec: §4.3 transaction type — "request" if an HTTP
status attribute is present, "messaging" if a messaging attribute is present,
otherwise "unknown". -/
def txnType (ctx : SpanContext) : String :=
  if ctx.httpStatusSet then "request"
  else if ctx.isMessaging then "messaging"
  else "unknown"

/-- The canonical gRPC status-code names (`google.golang.org/grpc/codes`,
`Code.String`); out-of-range codes render as `Code(n)`. -/
def grpcCodeName (c : Int) : String :=
  if c == 0 then "OK"
  else if c == 1 then "Canceled"
  else if c == 2 then "Unknown"
  else if c == 3 then "InvalidArgument"
  else if c == 4 then "DeadlineExceeded"
  else if c == 5 then "NotFound"
  else if c == 6 then "AlreadyExists"
  else if c == 7 then "PermissionDenied"
  else if c == 8 then "ResourceExhausted"
  else if c == 9 then "FailedPrecondition"
  else if c == 10 then "Aborted"
  else if c == 11 then "OutOfRange"
  else if c == 12 then "Unimplemented"
  else if c == 13 then "Internal"
  else if c == 14 then "Unavailable"
  else if c == 15 then "DataLoss"
  else if c == 16 then "Unauthenticated"
  else "Code(" ++ toString c ++ ")"

/-- Modelled from the spec: §4.2 — the numeric HTTP range drives the human
result string "HTTP 1xx".."HTTP 5xx". -/
def httpStatusCodeToResult (code : Int) : String :=
  let bucket := code / 100
  if 1 ≤ bucket && bucket ≤ 5 then "HTTP " ++ toString bucket ++ "xx"
  else "HTTP " ++ toString code

/-- Modelled from the spec: §4.2 outcome.  An explicitly set span status
(Error or Ok) takes final precedence over the HTTP/gRPC-derived outcome value
(status-precedence, pinned by test `http_status_5xx`: status Ok + HTTP 500 →
outcome "success"); with the status unset, the first matching attribute family
decides — HTTP codes ≥ 400 fail, a nonzero gRPC code fails — and with nothing
present the outcome defaults to "success".  The second component is the
derived `event.success_count`: the representative count on success, 0 on
failure. -/
def eventOutcome (ctx : SpanContext) (status : StatusCode) (repCount : Nat) :
    String × Nat :=
  match status with
  | .error => ("failure", 0)
  | .ok => ("success", repCount)
  | .unset =>
    if ctx.httpStatusSet then
      if 400 ≤ ctx.httpStatusCode then ("failure", 0) else ("success", repCount)
    else if ctx.grpcStatusSet then
      if ctx.grpcStatusCode == 0 then ("success", repCount) else ("failure", 0)
    else ("success", repCount)

/-- Modelled from the spec: §4.2 result string, first match wins — the HTTP
range string when an HTTP status attribute is present, else the canonical gRPC
status name when a gRPC status attribute is present, else "Error" for an
explicit Error span status and "Success" otherwise. -/
def txnResult (ctx : SpanContext) (status : StatusCode) : String :=
  if ctx.httpStatusSet then httpStatusCodeToResult ctx.httpStatusCode
  else if ctx.grpcStatusSet then grpcCodeName ctx.grpcStatusCode
  else match status with
    | .error => "Error"
    | _ => "Success"

/-- Modelled from the spec: §4.5 — a link is an inferred-child link when its
attribute set has a boolean true under the legacy `is_child` key or the
namespaced `elastic.is_child` key (values of other types read as false). -/
def isChildLink (l : SpanLink) : Bool :=
  (match getAttr l.attributes "is_child" with
   | some v => v.asBool
   | none => false)
  || (match getAttr l.attributes "elastic.is_child" with
      | some v => v.asBool
      | none => false)

/-- Modelled from the spec: §4.5 — partition the links into the kept
(non-child) links, in original order, and the hex-encoded span identifiers of
the inferred-child links, in original order. -/
def partitionChildLinks : List SpanLink → List SpanLink × List String
  | [] => ([], [])
  | l :: ls =>
    let (kept, ids) := partitionChildLinks ls
    if isChildLink l then (kept, hexSpanId l.spanId :: ids)
    else (l :: kept, ids)

/-- Host-and-port part of a full URL string: the authority section between
`://` and the following `/`, `?` or `#` (empty when the string has no scheme
separator), standing in for Go `url.Parse` followed by `URL.Host`. -/
def urlHostPort (u : String) : String :=
  go u.data
where
  go : List Char → String
  | [] => ""
  | ':' :: '/' :: '/' :: rest =>
    ⟨rest.takeWhile (fun c => !(c == '/' || c == '?' || c == '#'))⟩
  | _ :: rest => go rest

/-- Join an address and a port, leaving the address alone for ports ≤ 0. -/
def addrWithPort (addr : String) (port : Int) : String :=
  if port > 0 then addr ++ ":" ++ toString port else addr

/-- Modelled from the spec: §4.4 span type and subtype, first matching
category wins, in the spec's rule order (database, HTTP, RPC, messaging,
generative AI).  The empty subtype means none is emitted.  The fallback for a
span of kind Internal is type "app" / subtype "internal" (pinned by test
`internal_span`; the spec's rule 6 mentions only type "unknown"). -/
def spanTypeSubtype (ctx : SpanContext) (kind : SpanKind) : String × String :=
  if ctx.isDB then ("db", ctx.dbSystem)
  else if ctx.httpStatusSet then ("external", "http")
  else if ctx.isRPC then
    ("external", if ctx.grpcStatusSet then "grpc" else ctx.rpcSystem)
  else if ctx.isMessaging then ("messaging", ctx.messagingSystem)
  else if ctx.isGenAi then ("genai", ctx.genAiSystem)
  else match kind with
    | .internal => ("app", "internal")
    | _ => ("unknown", "")

/-- Modelled from the spec: §4.4 service target.  The target name defaults to
`peer.service` and the matching category may override it; the target type is
the category's system value.  The database category overlays the target type
with the `db.system` value and keeps the peer-service target name — pinned by
tests `db_over_http` and `db_over_rpc` (`service.target.type` =
"elasticsearch"/"cassandra" and `service.target.name` = the peer service even
with `rpc.service` present), overriding the spec's §4.4 rule 1 words that the
target is still taken from the HTTP/RPC/messaging rules.  The pair is emitted
only when at least one component is nonempty. -/
def serviceTarget (ctx : SpanContext) : Option (String × String) :=
  let defaultName := ctx.peerService
  let (targetType, targetName) :=
    if ctx.isDB then
      ((if ctx.dbSystem == "" then "db" else ctx.dbSystem), defaultName)
    else if ctx.httpStatusSet then
      ("http",
        if urlHostPort ctx.urlFull != "" then urlHostPort ctx.urlFull
        else if ctx.urlDomain != "" then addrWithPort ctx.urlDomain ctx.urlPort
        else defaultName)
    else if ctx.isRPC then
      ((if ctx.grpcStatusSet then "grpc"
        else if ctx.rpcSystem != "" then ctx.rpcSystem
        else "external"),
        if ctx.rpcService != "" then ctx.rpcService else defaultName)
    else if ctx.isMessaging then
      ((if ctx.messagingSystem == "" then "messaging" else ctx.messagingSystem),
        if ctx.messagingDestinationName != "" && !ctx.messagingDestinationTemp
        then ctx.messagingDestinationName else defaultName)
    else ("", defaultName)
  if targetType == "" && targetName == "" then none
  else some (targetType, targetName)

/-- Modelled from the spec: §4.4 destination-service resource.  The base is
`peer.service` when present, else the URL host, else `server.address` (with
port), else the deprecated `net.peer.name` (with port); when a messaging
destination name is present the resource is the `"base/destination"` join
(pinned by tests `messaging_destination` and `rpc_span_service.{address,
port}`: the resource keeps the peer/address base even when the target name was
overridden by `rpc.service` or the destination name).  None when no base
resolved. -/
def destinationResource (ctx : SpanContext) : Option String :=
  let base :=
    if ctx.peerService != "" then ctx.peerService
    else if urlHostPort ctx.urlFull != "" then urlHostPort ctx.urlFull
    else if ctx.serverAddress != "" then addrWithPort ctx.serverAddress ctx.serverPort
    else if ctx.netPeerName != "" then addrWithPort ctx.netPeerName ctx.netPeerPort
    else ""
  if base == "" then none
  else if ctx.messagingDestinationName != "" then
    some (base ++ "/" ++ ctx.messagingDestinationName)
  else some base

/-- Start timestamp in microseconds. -/
def startUs (s : Span) : Int :=
  (s.startTimestampNs : Int) / 1000

/-- Span duration in microseconds (the test spans all have end ≥ start; the
truncated natural subtraction models pdata's nonnegative durations). -/
def durationUs (s : Span) : Int :=
  ((s.endTimestampNs - s.startTimestampNs : Nat) : Int) / 1000

/-- Modelled from the spec: §2/§4 transaction enrichment — writes the derived
transaction attributes onto the span's attribute map and replaces the link
list by the non-child links, recording child ids under `span.links.child.id`
(only when at least one inferred-child link exists). -/
def enrichTransaction (ctx : SpanContext) (s : Span) : Span :=
  let repCount := getRepresentativeCount s.traceState
  let outcome := (eventOutcome ctx s.statusCode repCount).1
  let successCount := (eventOutcome ctx s.statusCode repCount).2
  let keptLinks := (partitionChildLinks s.links).1
  let childIds := (partitionChildLinks s.links).2
  let attrs := s.attributes
  let attrs := putAttr attrs "timestamp.us" (.int (startUs s))
  let attrs := putAttr attrs "transaction.sampled" (.bool true)
  let attrs := putAttr attrs "transaction.root"
    (.bool (isEmptySpanId s.parentSpanId))
  let attrs := putAttr attrs "transaction.id" (.str (hexSpanId s.spanId))
  let attrs := putAttr attrs "transaction.name" (.str s.name)
  let attrs := putAttr attrs "processor.event" (.str "transaction")
  let attrs := putAttr attrs "transaction.representative_count"
    (.double repCount)
  let attrs := putAttr attrs "transaction.duration.us" (.int (durationUs s))
  let attrs := putAttr attrs "event.outcome" (.str outcome)
  let attrs := putAttr attrs "event.success_count" (.int successCount)
  let attrs := putAttr attrs "transaction.result"
    (.str (txnResult ctx s.statusCode))
  let attrs := putAttr attrs "transaction.type" (.str (txnType ctx))
  let attrs :=
    if childIds.isEmpty then attrs
    else putAttr attrs "span.links.child.id" (.strList childIds)
  { s with attributes := attrs, links := keptLinks }

/-- Modelled from the spec: §2/§4 span enrichment for non-transaction spans —
writes the derived span attributes (type/subtype, outcome, target,
destination resource) and performs the same child-link inference as the
transaction path. -/
def enrichElasticSpan (ctx : SpanContext) (s : Span) : Span :=
  let repCount := getRepresentativeCount s.traceState
  let outcome := (eventOutcome ctx s.statusCode repCount).1
  let successCount := (eventOutcome ctx s.statusCode repCount).2
  let spanType := (spanTypeSubtype ctx s.kind).1
  let spanSubtype := (spanTypeSubtype ctx s.kind).2
  let keptLinks := (partitionChildLinks s.links).1
  let childIds := (partitionChildLinks s.links).2
  let attrs := s.attributes
  let attrs := putAttr attrs "timestamp.us" (.int (startUs s))
  let attrs := putAttr attrs "span.name" (.str s.name)
  let attrs := putAttr attrs "processor.event" (.str "span")
  let attrs := putAttr attrs "span.representative_count" (.double repCount)
  let attrs := putAttr attrs "span.type" (.str spanType)
  let attrs :=
    if spanSubtype == "" then attrs
    else putAttr attrs "span.subtype" (.str spanSubtype)
  let attrs := putAttr attrs "span.duration.us" (.int (durationUs s))
  let attrs := putAttr attrs "event.outcome" (.str outcome)
  let attrs := putAttr attrs "event.success_count" (.int successCount)
  let attrs :=
    match serviceTarget ctx with
    | some (targetType, targetName) =>
      putAttr (putAttr attrs "service.target.type" (.str targetType))
        "service.target.name" (.str targetName)
    | none => attrs
  let attrs :=
    match destinationResource ctx with
    | some resource =>
      putAttr attrs "span.destination.service.resource" (.str resource)
    | none => attrs
  let attrs :=
    if childIds.isEmpty then attrs
    else putAttr attrs "span.links.child.id" (.strList childIds)
  { s with attributes := attrs, links := keptLinks }

/-- UTF-8 encoding of one character as a byte list. -/
def utf8Bytes (c : Char) : List Nat :=
  let n := c.toNat
  if n < 0x80 then [n]
  else if n < 0x800 then
    [0xC0 ||| (n >>> 6), 0x80 ||| (n &&& 0x3F)]
  else if n < 0x10000 then
    [0xE0 ||| (n >>> 12), 0x80 ||| ((n >>> 6) &&& 0x3F), 0x80 ||| (n &&& 0x3F)]
  else
    [0xF0 ||| (n >>> 18), 0x80 ||| ((n >>> 12) &&& 0x3F),
     0x80 ||| ((n >>> 6) &&& 0x3F), 0x80 ||| (n &&& 0x3F)]

/-- UTF-8 bytes of a string (Go `[]byte(s)`). -/
def strBytes (s : String) : List Nat :=
  s.data.flatMap utf8Bytes

/-- The 64 MD5 sine-derived round constants (RFC 1321). -/
def md5K : List Nat :=
  [0xd76aa478, 0xe8c7b756, 0x242070db, 0xc1bdceee,
   0xf57c0faf, 0x4787c62a, 0xa8304613, 0xfd469501,
   0x698098d8, 0x8b44f7af, 0xffff5bb1, 0x895cd7be,
   0x6b901122, 0xfd987193, 0xa679438e, 0x49b40821,
   0xf61e2562, 0xc040b340, 0x265e5a51, 0xe9b6c7aa,
   0xd62f105d, 0x02441453, 0xd8a1e681, 0xe7d3fbc8,
   0x21e1cde6, 0xc33707d6, 0xf4d50d87, 0x455a14ed,
   0xa9e3e905, 0xfcefa3f8, 0x676f02d9, 0x8d2a4c8a,
   0xfffa3942, 0x8771f681, 0x6d9d6122, 0xfde5380c,
   0xa4beea44, 0x4bdecfa9, 0xf6bb4b60, 0xbebfbc70,
   0x289b7ec6, 0xeaa127fa, 0xd4ef3085, 0x04881d05,
   0xd9d4d039, 0xe6db99e5, 0x1fa27cf8, 0xc4ac5665,
   0xf4292244, 0x432aff97, 0xab9423a7, 0xfc93a039,
   0x655b59c3, 0x8f0ccc92, 0xffeff47d, 0x85845dd1,
   0x6fa87e4f, 0xfe2ce6e0, 0xa3014314, 0x4e0811a1,
   0xf7537e82, 0xbd3af235, 0x2ad7d2bb, 0xeb86d391]

/-- The 64 MD5 per-round left-rotation amounts (RFC 1321). -/
def md5S : List Nat :=
  [7, 12, 17, 22, 7, 12, 17, 22, 7, 12, 17, 22, 7, 12, 17, 22,
   5, 9, 14, 20, 5, 9, 14, 20, 5, 9, 14, 20, 5, 9, 14, 20,
   4, 11, 16, 23, 4, 11, 16, 23, 4, 11, 16, 23, 4, 11, 16, 23,
   6, 10, 15, 21, 6, 10, 15, 21, 6, 10, 15, 21, 6, 10, 15, 21]

/-- 32-bit left rotation on naturals below 2^32. -/
def rotl32 (x s : Nat) : Nat :=
  ((x <<< s) % 0x100000000) ||| (x >>> (32 - s))

/-- MD5 round mixing function for round index `i` (RFC 1321 F/G/H/I). -/
def md5F (i b c d : Nat) : Nat :=
  if i < 16 then (b &&& c) ||| ((b ^^^ 0xFFFFFFFF) &&& d)
  else if i < 32 then (d &&& b) ||| ((d ^^^ 0xFFFFFFFF) &&& c)
  else if i < 48 then b ^^^ c ^^^ d
  else c ^^^ (b ||| (d ^^^ 0xFFFFFFFF))

/-- MD5 message-word index for round index `i` (RFC 1321). -/
def md5G (i : Nat) : Nat :=
  if i < 16 then i
  else if i < 32 then (5 * i + 1) % 16
  else if i < 48 then (3 * i + 5) % 16
  else (7 * i) % 16

/-- Little-endian 32-bit word `j` of a 64-byte chunk. -/
def md5Word (chunk : List Nat) (j : Nat) : Nat :=
  chunk.getD (4 * j) 0 + 256 * chunk.getD (4 * j + 1) 0
    + 65536 * chunk.getD (4 * j + 2) 0 + 16777216 * chunk.getD (4 * j + 3) 0

/-- One MD5 round step on the register quadruple. -/
def md5Round (chunk : List Nat) (i : Nat) :
    Nat × Nat × Nat × Nat → Nat × Nat × Nat × Nat
  | (a, b, c, d) =>
    let f := (md5F i b c d + a + md5K.getD i 0 + md5Word chunk (md5G i))
      % 0x100000000
    (d, (b + rotl32 f (md5S.getD i 0)) % 0x100000000, b, c)

/-- Run MD5 rounds `i, i+1, ...` for `n` steps. -/
def md5Rounds (chunk : List Nat) (i : Nat) :
    Nat → Nat × Nat × Nat × Nat → Nat × Nat × Nat × Nat
  | 0, st => st
  | n + 1, st => md5Rounds chunk (i + 1) n (md5Round chunk i st)

/-- Process one 64-byte chunk into the running MD5 state. -/
def md5Block (chunk : List Nat) :
    Nat × Nat × Nat × Nat → Nat × Nat × Nat × Nat
  | (a, b, c, d) =>
    let (a₁, b₁, c₁, d₁) := md5Rounds chunk 0 64 (a, b, c, d)
    ((a + a₁) % 0x100000000, (b + b₁) % 0x100000000,
     (c + c₁) % 0x100000000, (d + d₁) % 0x100000000)

/-- Process `n` 64-byte chunks of the padded message. -/
def md5Blocks : Nat → List Nat → Nat × Nat × Nat × Nat → Nat × Nat × Nat × Nat
  | 0, _, st => st
  | n + 1, msg, st => md5Blocks n (msg.drop 64) (md5Block (msg.take 64) st)

/-- MD5 padding: append 0x80, zero bytes up to 56 mod 64, then the original
bit length as a little-endian 64-bit value. -/
def md5Pad (msg : List Nat) : List Nat :=
  let bitLen := (8 * msg.length) % 0x10000000000000000
  let zeros := (119 - msg.length % 64) % 64
  msg ++ [0x80] ++ List.replicate zeros 0
    ++ [bitLen &&& 0xFF, (bitLen >>> 8) &&& 0xFF, (bitLen >>> 16) &&& 0xFF,
        (bitLen >>> 24) &&& 0xFF, (bitLen >>> 32) &&& 0xFF,
        (bitLen >>> 40) &&& 0xFF, (bitLen >>> 48) &&& 0xFF,
        (bitLen >>> 56) &&& 0xFF]

/-- Little-endian bytes of one 32-bit word. -/
def le32Bytes (w : Nat) : List Nat :=
  [w &&& 0xFF, (w >>> 8) &&& 0xFF, (w >>> 16) &&& 0xFF, (w >>> 24) &&& 0xFF]

/-- MD5 digest (16 bytes) of a byte list (RFC 1321). -/
def md5Bytes (msg : List Nat) : List Nat :=
  let padded := md5Pad msg
  let (a, b, c, d) := md5Blocks (padded.length / 64) padded
    (0x67452301, 0xefcdab89, 0x98badcfe, 0x10325476)
  le32Bytes a ++ le32Bytes b ++ le32Bytes c ++ le32Bytes d

/-- Lower-case hex digest of the MD5 hash of a string's UTF-8 bytes — the
content hash the error-grouping key uses (`crypto/md5` + `hex.EncodeToString`
as in `TestSpanEventEnrich`). -/
def md5Hex (s : String) : String :=
  ⟨(md5Bytes (strBytes s)).flatMap hexByte⟩

/-- Modelled from the spec: §3/§6 configuration — one independent boolean
enable flag per enrichment facet (transaction, span, span-event); disabling a
facet is a strict no-op for that facet's attributes. -/
structure Config where
  transaction : Bool
  span : Bool
  spanEvent : Bool
deriving DecidableEq, Repr

/-- The all-enabled configuration (`config.Enabled()`). -/
def enabledConfig : Config := ⟨true, true, true⟩

/-- The zero-value configuration with every facet disabled. -/
def disabledConfig : Config := ⟨false, false, false⟩

/-- String attribute content of a span event, "" when absent or non-string. -/
def eventStr (e : SpanEvent) (k : String) : String :=
  getAttrStr e.attributes k

/-- Modelled from the spec: §4.6 exception/error enrichment of one span
event.  Every event gets `timestamp.us`; an event named "exception" with at
least one of `exception.type`/`exception.message`/`exception.stacktrace`
present additionally gets `processor.event` = "error", a fresh random error
identifier (injected here as `errorId`, per the spec's §9 note on making the
generator explicit), `error.exception.handled` = true, the `error.grouping_key`
content hash of `exception.type` alone, the `error.grouping_name` message
verbatim (absent if the message is absent), and — iff the owning span is
classified as a transaction — copies of `transaction.sampled` (true) and the
freshly computed `transaction.type`. -/
def enrichSpanEvent (errorId : String) (parentIsTxn : Bool)
    (parentTxnType : String) (e : SpanEvent) : SpanEvent :=
  let exType := eventStr e "exception.type"
  let exMessage := eventStr e "exception.message"
  let exStacktrace := eventStr e "exception.stacktrace"
  let isException := e.name == "exception"
    && (exType != "" || exMessage != "" || exStacktrace != "")
  let attrs := putAttr e.attributes "timestamp.us"
    (.int ((e.timestampNs : Int) / 1000))
  if isException then
    let attrs := putAttr attrs "processor.event" (.str "error")
    let attrs := putAttr attrs "error.id" (.str errorId)
    let attrs := putAttr attrs "error.exception.handled" (.bool true)
    let attrs := putAttr attrs "error.grouping_key" (.str (md5Hex exType))
    let attrs :=
      if exMessage != "" then
        putAttr attrs "error.grouping_name" (.str exMessage)
      else attrs
    let attrs :=
      if parentIsTxn then
        putAttr (putAttr attrs "transaction.sampled" (.bool true))
          "transaction.type" (.str parentTxnType)
      else attrs
    { e with attributes := attrs }
  else { e with attributes := attrs }

/-- Map over a list with the element index, starting at `i`. -/
def mapIdxFrom (f : Nat → α → β) (i : Nat) : List α → List β
  | [] => []
  | a :: as => f i a :: mapIdxFrom f (i + 1) as

/-- Modelled from the spec: §2 control flow — the engine classifies the span
once (transaction vs. span), runs the applicable facet when enabled, then
enriches each attached span event when the span-event facet is enabled.  The
random error-identifier source is injected as `idGen` (indexed by event
position), per the spec's §9 design note. -/
def EnrichSpan (idGen : Nat → String) (cfg : Config) (s : Span) : Span :=
  let ctx := extractSpanContext s
  let isTxn := isElasticTransaction s
  let s₁ :=
    if isTxn then (if cfg.transaction then enrichTransaction ctx s else s)
    else (if cfg.span then enrichElasticSpan ctx s else s)
  if cfg.spanEvent then
    { s₁ with events :=
        (mapIdxFrom (fun i e => enrichSpanEvent (idGen i) isTxn (txnType ctx) e)
          0 s₁.events) }
  else s₁

theorem beqTrue {k₀ k : String} (h : k = k₀) : (k == k₀) = true :=
  beq_iff_eq.mpr h

theorem beqFalse {k₀ k : String} (h : k ≠ k₀) : (k == k₀) = false :=
  beq_eq_false_iff_ne.mpr h

theorem getAttr_putAttr (l : AttrMap) (k₀ k : String) (v : AttrVal) :
    getAttr (putAttr l k₀ v) k = if k == k₀ then some v else getAttr l k := by
  induction l with
  | nil =>
    by_cases h : k = k₀
    · simp [putAttr, getAttr, List.lookup, beqTrue h, h]
    · simp [putAttr, getAttr, List.lookup, beqFalse h, h]
  | cons hd tl ih =>
    obtain ⟨k₁, v₁⟩ := hd
    by_cases h₁ : k₁ = k₀
    · subst h₁
      by_cases h₂ : k = k₁
      · simp [putAttr, getAttr, List.lookup, beqTrue rfl, beqTrue h₂, h₂]
      · simp [putAttr, getAttr, List.lookup, beqTrue rfl, beqFalse h₂, h₂]
    · by_cases h₂ : k = k₁
      · have h₃ : k ≠ k₀ := by rw [h₂]; exact h₁
        simp [putAttr, getAttr, List.lookup, beqFalse h₁, beqTrue h₂,
          beqFalse h₃, h₃]
      · by_cases h₃ : k = k₀
        · subst h₃
          have h₄ := ih
          simp only [getAttr, beqTrue rfl, if_true] at h₄
          simp [putAttr, getAttr, List.lookup, beqFalse h₁, beqFalse h₂,
            beqTrue rfl, h₄]
        · have h₄ := ih
          simp only [getAttr, beqFalse h₃, Bool.false_eq_true, if_false] at h₄
          simp [putAttr, getAttr, List.lookup, beqFalse h₁, beqFalse h₂,
            beqFalse h₃, h₃, h₄]

theorem getAttr_putAttr_same (l : AttrMap) (k : String) (v : AttrVal) :
    getAttr (putAttr l k v) k = some v := by
  simp [getAttr_putAttr]

theorem getAttr_putAttr_ne (l : AttrMap) (k₀ k : String) (v : AttrVal)
    (h : k ≠ k₀) : getAttr (putAttr l k₀ v) k = getAttr l k := by
  simp [getAttr_putAttr, h]

theorem enrichTransaction_outcome (ctx : SpanContext) (s : Span) :
    getAttr (enrichTransaction ctx s).attributes "event.outcome" =
      some (.str (eventOutcome ctx s.statusCode
        (getRepresentativeCount s.traceState)).1) := by
  by_cases hc : (partitionChildLinks s.links).2.isEmpty <;>
    simp [enrichTransaction, hc, getAttr_putAttr]

theorem enrichTransaction_successCount (ctx : SpanContext) (s : Span) :
    getAttr (enrichTransaction ctx s).attributes "event.success_count" =
      some (.int (eventOutcome ctx s.statusCode
        (getRepresentativeCount s.traceState)).2) := by
  by_cases hc : (partitionChildLinks s.links).2.isEmpty <;>
    simp [enrichTransaction, hc, getAttr_putAttr]

theorem enrichTransaction_result (ctx : SpanContext) (s : Span) :
    getAttr (enrichTransaction ctx s).attributes "transaction.result" =
      some (.str (txnResult ctx s.statusCode)) := by
  by_cases hc : (partitionChildLinks s.links).2.isEmpty <;>
    simp [enrichTransaction, hc, getAttr_putAttr]

theorem enrichTransaction_type (ctx : SpanContext) (s : Span) :
    getAttr (enrichTransaction ctx s).attributes "transaction.type" =
      some (.str (txnType ctx)) := by
  by_cases hc : (partitionChildLinks s.links).2.isEmpty <;>
    simp [enrichTransaction, hc, getAttr_putAttr]

theorem enrichTransaction_childIds (ctx : SpanContext) (s : Span) :
    getAttr (enrichTransaction ctx s).attributes "span.links.child.id" =
      (if (partitionChildLinks s.links).2.isEmpty then
        getAttr s.attributes "span.links.child.id"
      else some (.strList (partitionChildLinks s.links).2)) := by
  by_cases hc : (partitionChildLinks s.links).2.isEmpty <;>
    simp [enrichTransaction, hc, getAttr_putAttr]

theorem enrichTransaction_links (ctx : SpanContext) (s : Span) :
    (enrichTransaction ctx s).links = (partitionChildLinks s.links).1 := by
  simp [enrichTransaction]

theorem enrichTransaction_events (ctx : SpanContext) (s : Span) :
    (enrichTransaction ctx s).events = s.events := by
  simp [enrichTransaction]

theorem enrichElasticSpan_outcome (ctx : SpanContext) (s : Span) :
    getAttr (enrichElasticSpan ctx s).attributes "event.outcome" =
      some (.str (eventOutcome ctx s.statusCode
        (getRepresentativeCount s.traceState)).1) := by
  by_cases hc : (partitionChildLinks s.links).2.isEmpty <;>
  by_cases hs : (spanTypeSubtype ctx s.kind).2 == "" <;>
  rcases ht : serviceTarget ctx with _ | ⟨tt, tn⟩ <;>
  rcases hd : destinationResource ctx with _ | r <;>
    simp [enrichElasticSpan, hc, hs, ht, hd, getAttr_putAttr]

theorem enrichElasticSpan_successCount (ctx : SpanContext) (s : Span) :
    getAttr (enrichElasticSpan ctx s).attributes "event.success_count" =
      some (.int (eventOutcome ctx s.statusCode
        (getRepresentativeCount s.traceState)).2) := by
  by_cases hc : (partitionChildLinks s.links).2.isEmpty <;>
  by_cases hs : (spanTypeSubtype ctx s.kind).2 == "" <;>
  rcases ht : serviceTarget ctx with _ | ⟨tt, tn⟩ <;>
  rcases hd : destinationResource ctx with _ | r <;>
    simp [enrichElasticSpan, hc, hs, ht, hd, getAttr_putAttr]

theorem enrichElasticSpan_spanType (ctx : SpanContext) (s : Span) :
    getAttr (enrichElasticSpan ctx s).attributes "span.type" =
      some (.str (spanTypeSubtype ctx s.kind).1) := by
  by_cases hc : (partitionChildLinks s.links).2.isEmpty <;>
  by_cases hs : (spanTypeSubtype ctx s.kind).2 == "" <;>
  rcases ht : serviceTarget ctx with _ | ⟨tt, tn⟩ <;>
  rcases hd : destinationResource ctx with _ | r <;>
    simp [enrichElasticSpan, hc, hs, ht, hd, getAttr_putAttr]

theorem enrichElasticSpan_spanSubtype (ctx : SpanContext) (s : Span) :
    getAttr (enrichElasticSpan ctx s).attributes "span.subtype" =
      (if (spanTypeSubtype ctx s.kind).2 == "" then
        getAttr s.attributes "span.subtype"
      else some (.str (spanTypeSubtype ctx s.kind).2)) := by
  by_cases hc : (partitionChildLinks s.links).2.isEmpty <;>
  by_cases hs : (spanTypeSubtype ctx s.kind).2 == "" <;>
  rcases ht : serviceTarget ctx with _ | ⟨tt, tn⟩ <;>
  rcases hd : destinationResource ctx with _ | r <;>
    simp [enrichElasticSpan, hc, hs, ht, hd, getAttr_putAttr]

theorem enrichElasticSpan_targetType (ctx : SpanContext) (s : Span) :
    getAttr (enrichElasticSpan ctx s).attributes "service.target.type" =
      (match serviceTarget ctx with
       | some (tt, _) => some (.str tt)
       | none => getAttr s.attributes "service.target.type") := by
  by_cases hc : (partitionChildLinks s.links).2.isEmpty <;>
  by_cases hs : (spanTypeSubtype ctx s.kind).2 == "" <;>
  rcases ht : serviceTarget ctx with _ | ⟨tt, tn⟩ <;>
  rcases hd : destinationResource ctx with _ | r <;>
    simp [enrichElasticSpan, hc, hs, ht, hd, getAttr_putAttr]

theorem enrichElasticSpan_targetName (ctx : SpanContext) (s : Span) :
    getAttr (enrichElasticSpan ctx s).attributes "service.target.name" =
      (match serviceTarget ctx with
       | some (_, tn) => some (.str tn)
       | none => getAttr s.attributes "service.target.name") := by
  by_cases hc : (partitionChildLinks s.links).2.isEmpty <;>
  by_cases hs : (spanTypeSubtype ctx s.kind).2 == "" <;>
  rcases ht : serviceTarget ctx with _ | ⟨tt, tn⟩ <;>
  rcases hd : destinationResource ctx with _ | r <;>
    simp [enrichElasticSpan, hc, hs, ht, hd, getAttr_putAttr]

theorem enrichElasticSpan_resource (ctx : SpanContext) (s : Span) :
    getAttr (enrichElasticSpan ctx s).attributes
        "span.destination.service.resource" =
      (match destinationResource ctx with
       | some r => some (.str r)
       | none => getAttr s.attributes "span.destination.service.resource") := by
  by_cases hc : (partitionChildLinks s.links).2.isEmpty <;>
  by_cases hs : (spanTypeSubtype ctx s.kind).2 == "" <;>
  rcases ht : serviceTarget ctx with _ | ⟨tt, tn⟩ <;>
  rcases hd : destinationResource ctx with _ | r <;>
    simp [enrichElasticSpan, hc, hs, ht, hd, getAttr_putAttr]

theorem enrichElasticSpan_childIds (ctx : SpanContext) (s : Span) :
    getAttr (enrichElasticSpan ctx s).attributes "span.links.child.id" =
      (if (partitionChildLinks s.links).2.isEmpty then
        getAttr s.attributes "span.links.child.id"
      else some (.strList (partitionChildLinks s.links).2)) := by
  by_cases hc : (partitionChildLinks s.links).2.isEmpty <;>
  by_cases hs : (spanTypeSubtype ctx s.kind).2 == "" <;>
  rcases ht : serviceTarget ctx with _ | ⟨tt, tn⟩ <;>
  rcases hd : destinationResource ctx with _ | r <;>
    simp [enrichElasticSpan, hc, hs, ht, hd, getAttr_putAttr]

theorem enrichElasticSpan_links (ctx : SpanContext) (s : Span) :
    (enrichElasticSpan ctx s).links = (partitionChildLinks s.links).1 := by
  simp [enrichElasticSpan]

theorem enrichElasticSpan_events (ctx : SpanContext) (s : Span) :
    (enrichElasticSpan ctx s).events = s.events := by
  simp [enrichElasticSpan]

theorem partitionChildLinks_fst (ls : List SpanLink) :
    (partitionChildLinks ls).1 = ls.filter (fun l => !isChildLink l) := by
  induction ls with
  | nil => simp [partitionChildLinks]
  | cons l ls ih =>
    by_cases h : isChildLink l <;>
      simp [partitionChildLinks, List.filter_cons, h, ih]

theorem partitionChildLinks_snd (ls : List SpanLink) :
    (partitionChildLinks ls).2 =
      (ls.filter (fun l => isChildLink l)).map (fun l => hexSpanId l.spanId) := by
  induction ls with
  | nil => simp [partitionChildLinks]
  | cons l ls ih =>
    by_cases h : isChildLink l <;>
      simp [partitionChildLinks, List.filter_cons, h, ih]

theorem mapIdxFrom_length (f : Nat → α → β) (i : Nat) (l : List α) :
    (mapIdxFrom f i l).length = l.length := by
  induction l generalizing i with
  | nil => simp [mapIdxFrom]
  | cons a as ih => simp [mapIdxFrom, ih]

theorem mapIdxFrom_get (f : Nat → α → β) (i : Nat) (l : List α) (j : Nat)
    (hj : j < l.length) (hj₂ : j < (mapIdxFrom f i l).length) :
    (mapIdxFrom f i l).get ⟨j, hj₂⟩ = f (i + j) (l.get ⟨j, hj⟩) := by
  induction l generalizing i j with
  | nil => exact absurd hj (by simp)
  | cons a as ih =>
    cases j with
    | zero => simp [mapIdxFrom]
    | succ j =>
      have hj' : j < as.length := by simpa using hj
      have hj₂' : j < (mapIdxFrom f (i + 1) as).length := by
        simpa [mapIdxFrom_length] using hj'
      have := ih (i + 1) j hj' hj₂'
      simpa [mapIdxFrom, Nat.add_comm, Nat.add_assoc, Nat.add_left_comm]
        using this

theorem EnrichSpan_attributes (idGen : Nat → String) (cfg : Config) (s : Span) :
    (EnrichSpan idGen cfg s).attributes =
      (if isElasticTransaction s then
        (if cfg.transaction then
          (enrichTransaction (extractSpanContext s) s).attributes
        else s.attributes)
      else
        (if cfg.span then (enrichElasticSpan (extractSpanContext s) s).attributes
        else s.attributes)) := by
  by_cases he : cfg.spanEvent <;> by_cases ht : isElasticTransaction s <;>
  by_cases hf : cfg.transaction <;> by_cases hg : cfg.span <;>
    simp [EnrichSpan, he, ht, hf, hg]

theorem EnrichSpan_links (idGen : Nat → String) (cfg : Config) (s : Span) :
    (EnrichSpan idGen cfg s).links =
      (if isElasticTransaction s then
        (if cfg.transaction then (partitionChildLinks s.links).1 else s.links)
      else
        (if cfg.span then (partitionChildLinks s.links).1 else s.links)) := by
  by_cases he : cfg.spanEvent <;> by_cases ht : isElasticTransaction s <;>
  by_cases hf : cfg.transaction <;> by_cases hg : cfg.span <;>
    simp [EnrichSpan, he, ht, hf, hg, enrichTransaction_links,
      enrichElasticSpan_links]

theorem EnrichSpan_events (idGen : Nat → String) (cfg : Config) (s : Span) :
    (EnrichSpan idGen cfg s).events =
      (if cfg.spanEvent then
        mapIdxFrom (fun i e => enrichSpanEvent (idGen i) (isElasticTransaction s)
          (txnType (extractSpanContext s)) e) 0 s.events
      else s.events) := by
  by_cases he : cfg.spanEvent <;> by_cases ht : isElasticTransaction s <;>
  by_cases hf : cfg.transaction <;> by_cases hg : cfg.span <;>
    simp [EnrichSpan, he, ht, hf, hg, enrichTransaction_events,
      enrichElasticSpan_events]

/-- Deterministic injected error-identifier generator for concrete instances. -/
def idGenW : Nat → String := fun n => "error-id-" ++ toString n

/-- A span with every field empty or zero (the `ptrace.NewSpan()` shape). -/
def emptySpan : Span :=
  { name := "", spanId := [0, 0, 0, 0, 0, 0, 0, 0],
    parentSpanId := [0, 0, 0, 0, 0, 0, 0, 0], kind := .unspecified,
    startTimestampNs := 0, endTimestampNs := 0, statusCode := .unset,
    traceState := "", flags := 0, attributes := [], events := [], links := [] }

/-- The remote-parent span of `TestIsElasticTransaction`: parent present,
both remote-context flag bits set. -/
def spanRemoteParent : Span :=
  { emptySpan with
    parentSpanId := [8, 9, 10, 11, 12, 13, 14, 0], flags := 0x300 }

/-- A span with a local (non-remote) parent and kind Internal. -/
def spanLocalInternal : Span :=
  { emptySpan with
    parentSpanId := [8, 9, 10, 11, 12, 13, 14, 0], flags := 0x100,
    kind := .internal }

/-- C2: a span is classified as a transaction iff it has no parent span
identifier, or its flags carry both the has-is-remote and is-remote bits, or
the parent-remote bit is unset while the kind is Server or Consumer; a
remote-flagged parent always yields a transaction, and a local parent with
kind Internal, Producer or Unspecified never does. -/
theorem claim2_transaction_classification (s : Span) :
    (isElasticTransaction s = true ↔
      (isEmptySpanId s.parentSpanId = true ∨
       (s.flags &&& 0x100 ≠ 0 ∧ s.flags &&& 0x200 ≠ 0) ∨
       (s.flags &&& 0x200 = 0 ∧
         (s.kind = SpanKind.server ∨ s.kind = SpanKind.consumer))))
    ∧ ((s.flags &&& 0x100 ≠ 0 ∧ s.flags &&& 0x200 ≠ 0) →
        isElasticTransaction s = true)
    ∧ ((isEmptySpanId s.parentSpanId = false ∧ s.flags &&& 0x200 = 0 ∧
        (s.kind = SpanKind.internal ∨ s.kind = SpanKind.producer ∨
         s.kind = SpanKind.unspecified)) →
        isElasticTransaction s = false) := by
  refine ⟨?_, ?_, ?_⟩
  · simp only [isElasticTransaction, Bool.or_eq_true, Bool.and_eq_true,
      bne_iff_ne, ne_eq, beq_iff_eq]
    tauto
  · rintro ⟨h₁, h₂⟩
    simp only [isElasticTransaction, Bool.or_eq_true, Bool.and_eq_true,
      bne_iff_ne, ne_eq, beq_iff_eq]
    tauto
  · rintro ⟨h₁, h₂, h₃⟩
    simp only [isElasticTransaction, Bool.or_eq_true, Bool.and_eq_true,
      bne_iff_ne, ne_eq, beq_iff_eq, h₁, h₂]
    rcases h₃ with h | h | h <;> simp [h]

/-- Witness for C2 at the remote-parent and local-internal test spans. -/
theorem claim2_witness :
    isElasticTransaction spanRemoteParent = true ∧
    isElasticTransaction spanLocalInternal = false :=
  ⟨(claim2_transaction_classification spanRemoteParent).2.1 (by decide),
   (claim2_transaction_classification spanLocalInternal).2.2 (by decide)⟩

/-- C6: the representative count is 2^p for a valid OpenTelemetry p-value
between 0 and 63, 1 when the p-value is out of range or the trace-state is
malformed or missing; it is always a power of two ≥ 1, and the trace-state
"ot=p:8;" yields exactly 256. -/
theorem claim6_representative_count (ts : String) (p : Nat) :
    (parsePValue ts = some p → p ≤ 63 →
      getRepresentativeCount ts = 2 ^ p)
    ∧ (parsePValue ts = some p → 63 < p → getRepresentativeCount ts = 1)
    ∧ (parsePValue ts = none → getRepresentativeCount ts = 1)
    ∧ (∃ q, q ≤ 63 ∧ getRepresentativeCount ts = 2 ^ q)
    ∧ 1 ≤ getRepresentativeCount ts
    ∧ getRepresentativeCount "ot=p:8;" = 256 := by
  refine ⟨?_, ?_, ?_, ?_, ?_, by rfl⟩
  · intro h hle
    simp [getRepresentativeCount, h, hle]
  · intro h hgt
    simp [getRepresentativeCount, h, Nat.not_le.mpr hgt]
  · intro h
    simp [getRepresentativeCount, h]
  · rcases h : parsePValue ts with _ | q
    · exact ⟨0, by simp, by simp [getRepresentativeCount, h]⟩
    · by_cases hle : q ≤ 63
      · exact ⟨q, hle, by simp [getRepresentativeCount, h, hle]⟩
      · exact ⟨0, by simp, by simp [getRepresentativeCount, h, hle]⟩
  · rcases h : parsePValue ts with _ | q
    · simp [getRepresentativeCount, h]
    · by_cases hle : q ≤ 63 <;>
        simp [getRepresentativeCount, h, hle, Nat.one_le_two_pow]

/-- Witness for C6 at the trace-state of the `with_pvalue` test. -/
theorem claim6_witness :
    parsePValue "ot=p:8;" = some 8 ∧
    getRepresentativeCount "ot=p:8;" = 2 ^ 8 :=
  ⟨by rfl,
   (claim6_representative_count "ot=p:8;" 8).1 (by rfl) (by decide)⟩

/-- C8: with every facet disabled the engine is the identity on the span
(attributes, links and events untouched); a span classified as a transaction
is untouched in attributes and links when the transaction facet alone is
disabled, and symmetrically for non-transaction spans and the span facet. -/
theorem claim8_disabled_noop (idGen : Nat → String) (s : Span) :
    EnrichSpan idGen disabledConfig s = s
    ∧ (isElasticTransaction s = true →
        (EnrichSpan idGen ⟨false, true, false⟩ s).attributes = s.attributes ∧
        (EnrichSpan idGen ⟨false, true, false⟩ s).links = s.links ∧
        (EnrichSpan idGen ⟨false, true, false⟩ s).events = s.events)
    ∧ (isElasticTransaction s = false →
        (EnrichSpan idGen ⟨true, false, false⟩ s).attributes = s.attributes ∧
        (EnrichSpan idGen ⟨true, false, false⟩ s).links = s.links ∧
        (EnrichSpan idGen ⟨true, false, false⟩ s).events = s.events) := by
  refine ⟨?_, ?_, ?_⟩
  · simp [EnrichSpan, disabledConfig]
  · intro h
    exact ⟨by simp [EnrichSpan_attributes, h], by simp [EnrichSpan_links, h],
      by simp [EnrichSpan_events, h]⟩
  · intro h
    exact ⟨by simp [EnrichSpan_attributes, h], by simp [EnrichSpan_links, h],
      by simp [EnrichSpan_events, h]⟩

/-- Witness for C8 at the all-disabled test spans (a transaction-classified
empty span and a non-transaction local-internal span). -/
theorem claim8_witness :
    EnrichSpan idGenW disabledConfig emptySpan = emptySpan
    ∧ (EnrichSpan idGenW ⟨false, true, false⟩ emptySpan).attributes =
        emptySpan.attributes
    ∧ (EnrichSpan idGenW ⟨true, false, false⟩ spanLocalInternal).attributes =
        spanLocalInternal.attributes :=
  ⟨(claim8_disabled_noop idGenW emptySpan).1,
   ((claim8_disabled_noop idGenW emptySpan).2.1 (by decide)).1,
   ((claim8_disabled_noop idGenW spanLocalInternal).2.2 (by decide)).1⟩

theorem eventOutcome_cases (ctx : SpanContext) (st : StatusCode) (rc : Nat) :
    ((eventOutcome ctx st rc).1 = "success" ∧ (eventOutcome ctx st rc).2 = rc)
    ∨ ((eventOutcome ctx st rc).1 = "failure" ∧
        (eventOutcome ctx st rc).2 = 0) := by
  rcases st <;> simp only [eventOutcome] <;> try simp
  split_ifs <;> simp

/-- C9: with enrichment enabled the engine writes `event.success_count`: the
integer representative count when the derived outcome is "success" and 0 when
the outcome is "failure". -/
theorem claim9_success_count (idGen : Nat → String) (s : Span) :
    (getAttr (EnrichSpan idGen enabledConfig s).attributes "event.outcome" =
        some (.str "success") →
      getAttr (EnrichSpan idGen enabledConfig s).attributes
          "event.success_count" =
        some (.int (getRepresentativeCount s.traceState)))
    ∧ (getAttr (EnrichSpan idGen enabledConfig s).attributes "event.outcome" =
        some (.str "failure") →
      getAttr (EnrichSpan idGen enabledConfig s).attributes
          "event.success_count" = some (.int 0)) := by
  have hc := eventOutcome_cases (extractSpanContext s) s.statusCode
    (getRepresentativeCount s.traceState)
  by_cases h : isElasticTransaction s <;>
    rw [EnrichSpan_attributes] <;>
    simp only [h, enabledConfig, if_true, if_false, Bool.false_eq_true,
      enrichTransaction_outcome, enrichTransaction_successCount,
      enrichElasticSpan_outcome, enrichElasticSpan_successCount] <;>
    rcases hc with ⟨h₁, h₂⟩ | ⟨h₁, h₂⟩ <;>
    simp [h₁, h₂]

/-- Witness for C9 at the `with_pvalue` span (success, count 256) and the
`span_status_error` span (failure, count 0). -/
theorem claim9_witness :
    getAttr (EnrichSpan idGenW enabledConfig
        { emptySpan with traceState := "ot=p:8;" }).attributes
        "event.success_count" = some (.int 256)
    ∧ getAttr (EnrichSpan idGenW enabledConfig
        { emptySpan with statusCode := .error }).attributes
        "event.success_count" = some (.int 0) :=
  ⟨by
    have h := (claim9_success_count idGenW
      { emptySpan with traceState := "ot=p:8;" }).1 (by rfl)
    simpa using h,
   (claim9_success_count idGenW { emptySpan with statusCode := .error }).2
    (by rfl)⟩

/-- The claim's determinability predicate, following the spec's words: an
outcome can be determined when the span status is explicitly set (not Unset)
or an HTTP or gRPC status attribute is present. -/
def outcomeDeterminable (s : Span) : Bool :=
  !(s.statusCode == StatusCode.unset)
  || (extractSpanContext s).httpStatusSet
  || (extractSpanContext s).grpcStatusSet

/-- Counterexample to C5: on the empty span — status Unset, no HTTP or gRPC
status attributes, so no outcome is determinable in the claim's sense — the
enriched span still carries `event.outcome` = "success" (the optimistic
default of the `empty` test row), not an absent attribute. -/
theorem claim5_counterexample :
    getAttr (EnrichSpan idGenW enabledConfig emptySpan).attributes
        "event.outcome" = some (.str "success")
    ∧ outcomeDeterminable emptySpan = false := by
  exact ⟨by rfl, by rfl⟩

/-- C5 amended: with the facet enabled, `event.outcome` is always present on
the enriched span; when neither an explicit span status nor HTTP/gRPC status
attributes are available it defaults to "success" rather than being absent. -/
theorem claim5_outcome_always_present (idGen : Nat → String) (s : Span) :
    (getAttr (EnrichSpan idGen enabledConfig s).attributes
        "event.outcome").isSome = true
    ∧ (outcomeDeterminable s = false →
        getAttr (EnrichSpan idGen enabledConfig s).attributes "event.outcome" =
          some (.str "success")) := by
  constructor
  · rw [EnrichSpan_attributes]
    by_cases h : isElasticTransaction s <;>
      simp [h, enabledConfig, enrichTransaction_outcome,
        enrichElasticSpan_outcome]
  · intro hd
    have h₁ : s.statusCode = StatusCode.unset := by
      rcases hs : s.statusCode
      · rfl
      · simp [outcomeDeterminable, hs] at hd
      · simp [outcomeDeterminable, hs] at hd
    have h₂ : (extractSpanContext s).httpStatusSet = false := by
      by_cases hb : (extractSpanContext s).httpStatusSet
      · simp [outcomeDeterminable, hb] at hd
      · simpa using hb
    have h₃ : (extractSpanContext s).grpcStatusSet = false := by
      by_cases hb : (extractSpanContext s).grpcStatusSet
      · simp [outcomeDeterminable, hb] at hd
      · simpa using hb
    rw [EnrichSpan_attributes]
    by_cases h : isElasticTransaction s <;>
      simp [h, enabledConfig, enrichTransaction_outcome,
        enrichElasticSpan_outcome, eventOutcome, h₁, h₂, h₃]

/-- Witness for C5-amended at the empty span. -/
theorem claim5_witness :
    getAttr (EnrichSpan idGenW enabledConfig emptySpan).attributes
        "event.outcome" = some (.str "success") :=
  (claim5_outcome_always_present idGenW emptySpan).2 (by rfl)

/-- The `http_status_5xx` test span: explicit Ok status, deprecated HTTP
status-code attribute 500. -/
def spanHttp500Ok : Span :=
  { emptySpan with
    name := "testtxn", spanId := [1, 0, 0, 0, 0, 0, 0, 0],
    startTimestampNs := 3540000000000, endTimestampNs := 3600000000000,
    statusCode := .ok, attributes := [("http.status_code", .int 500)] }

/-- The `http_status_ok` test span: HTTP status-code attribute 200, no
explicit status. -/
def spanHttp200 : Span :=
  { emptySpan with
    name := "testtxn", spanId := [1, 0, 0, 0, 0, 0, 0, 0],
    startTimestampNs := 3540000000000, endTimestampNs := 3600000000000,
    attributes := [("http.status_code", .int 200)] }

/-- C1: on a transaction with explicit Ok span status and an HTTP status-code
attribute of 500, the outcome is "success" (status precedence) while the
result string is still "HTTP 5xx" (attribute precedence for the label); and on
a transaction with HTTP status 200 (status not Error) the result is
"HTTP 2xx", the outcome "success", and the type "request". -/
theorem claim1_outcome_result_precedence (idGen : Nat → String) (s₁ s₂ : Span)
    (h₁t : isElasticTransaction s₁ = true)
    (h₁s : s₁.statusCode = StatusCode.ok)
    (h₁h : (extractSpanContext s₁).httpStatusSet = true)
    (h₁c : (extractSpanContext s₁).httpStatusCode = 500)
    (h₂t : isElasticTransaction s₂ = true)
    (h₂s : s₂.statusCode ≠ StatusCode.error)
    (h₂h : (extractSpanContext s₂).httpStatusSet = true)
    (h₂c : (extractSpanContext s₂).httpStatusCode = 200) :
    getAttr (EnrichSpan idGen enabledConfig s₁).attributes "event.outcome" =
      some (.str "success")
    ∧ getAttr (EnrichSpan idGen enabledConfig s₁).attributes
        "transaction.result" = some (.str "HTTP 5xx")
    ∧ getAttr (EnrichSpan idGen enabledConfig s₂).attributes
        "transaction.result" = some (.str "HTTP 2xx")
    ∧ getAttr (EnrichSpan idGen enabledConfig s₂).attributes "event.outcome" =
      some (.str "success")
    ∧ getAttr (EnrichSpan idGen enabledConfig s₂).attributes
        "transaction.type" = some (.str "request") := by
  refine ⟨?_, ?_, ?_, ?_, ?_⟩
  · rw [EnrichSpan_attributes]
    simp [h₁t, enabledConfig, enrichTransaction_outcome, eventOutcome, h₁s]
  · rw [EnrichSpan_attributes]
    simp [h₁t, enabledConfig, enrichTransaction_result, txnResult, h₁h, h₁c,
      httpStatusCodeToResult]
    rfl
  · rw [EnrichSpan_attributes]
    simp [h₂t, enabledConfig, enrichTransaction_result, txnResult, h₂h, h₂c,
      httpStatusCodeToResult]
    rfl
  · rw [EnrichSpan_attributes]
    rcases hs : s₂.statusCode
    · simp [h₂t, enabledConfig, enrichTransaction_outcome, eventOutcome, hs,
        h₂h, h₂c]
    · simp [h₂t, enabledConfig, enrichTransaction_outcome, eventOutcome, hs]
    · exact absurd hs h₂s
  · rw [EnrichSpan_attributes]
    simp [h₂t, enabledConfig, enrichTransaction_type, txnType, h₂h]

/-- Witness for C1 at the `http_status_5xx` and `http_status_ok` test spans. -/
theorem claim1_witness :
    getAttr (EnrichSpan idGenW enabledConfig spanHttp500Ok).attributes
        "event.outcome" = some (.str "success")
    ∧ getAttr (EnrichSpan idGenW enabledConfig spanHttp500Ok).attributes
        "transaction.result" = some (.str "HTTP 5xx")
    ∧ getAttr (EnrichSpan idGenW enabledConfig spanHttp200).attributes
        "transaction.result" = some (.str "HTTP 2xx")
    ∧ getAttr (EnrichSpan idGenW enabledConfig spanHttp200).attributes
        "event.outcome" = some (.str "success")
    ∧ getAttr (EnrichSpan idGenW enabledConfig spanHttp200).attributes
        "transaction.type" = some (.str "request") :=
  claim1_outcome_result_precedence idGenW spanHttp500Ok spanHttp200
    (by rfl) (by rfl) (by rfl) (by rfl) (by rfl) (by decide) (by rfl) (by rfl)

/-- The `internal_span` test span: parented, kind Internal, no attributes. -/
def spanInternalKind : Span :=
  { emptySpan with
    parentSpanId := [1, 0, 0, 0, 0, 0, 0, 0], kind := .internal }

/-- C10: a non-transaction span of kind Internal carrying none of the
database/HTTP/RPC/messaging/generative-AI category attributes gets span.type
"app" and span.subtype "internal" instead of the generic "unknown". -/
theorem claim10_internal_app (idGen : Nat → String) (s : Span)
    (ht : isElasticTransaction s = false)
    (hk : s.kind = SpanKind.internal)
    (hdb : (extractSpanContext s).isDB = false)
    (hhttp : (extractSpanContext s).httpStatusSet = false)
    (hrpc : (extractSpanContext s).isRPC = false)
    (hmsg : (extractSpanContext s).isMessaging = false)
    (hgen : (extractSpanContext s).isGenAi = false) :
    getAttr (EnrichSpan idGen enabledConfig s).attributes "span.type" =
      some (.str "app")
    ∧ getAttr (EnrichSpan idGen enabledConfig s).attributes "span.subtype" =
      some (.str "internal") := by
  have hts : spanTypeSubtype (extractSpanContext s) s.kind =
      ("app", "internal") := by
    simp [spanTypeSubtype, hk, hdb, hhttp, hrpc, hmsg, hgen]
  constructor
  · rw [EnrichSpan_attributes]
    simp [ht, enabledConfig, enrichElasticSpan_spanType, hts]
  · rw [EnrichSpan_attributes]
    simp [ht, enabledConfig, enrichElasticSpan_spanSubtype, hts]

/-- Witness for C10 at the `internal_span` test span. -/
theorem claim10_witness :
    getAttr (EnrichSpan idGenW enabledConfig spanInternalKind).attributes
        "span.type" = some (.str "app")
    ∧ getAttr (EnrichSpan idGenW enabledConfig spanInternalKind).attributes
        "span.subtype" = some (.str "internal") :=
  claim10_internal_app idGenW spanInternalKind (by rfl) (by rfl) (by rfl)
    (by rfl) (by rfl) (by rfl) (by rfl)

/-- C4: after enrichment the links marked as inferred children (boolean true
under `is_child` or `elastic.is_child`) are removed from the span's link list,
the unmarked links remain in original order, and the hex span identifiers of
the marked links appear in original link order under `span.links.child.id`; a
span with zero marked links keeps the child-id attribute exactly as it was
(in particular absent when it was absent). -/
theorem claim4_child_link_inference (idGen : Nat → String) (s : Span) :
    (EnrichSpan idGen enabledConfig s).links =
      s.links.filter (fun l => !isChildLink l)
    ∧ getAttr (EnrichSpan idGen enabledConfig s).attributes
        "span.links.child.id" =
      (if s.links.filter (fun l => isChildLink l) = [] then
        getAttr s.attributes "span.links.child.id"
      else some (.strList ((s.links.filter (fun l => isChildLink l)).map
        (fun l => hexSpanId l.spanId)))) := by
  have hempty : (partitionChildLinks s.links).2.isEmpty =
      decide (s.links.filter (fun l => isChildLink l) = []) := by
    rw [partitionChildLinks_snd]
    rcases h : s.links.filter (fun l => isChildLink l) <;> simp [h]
  constructor
  · rw [EnrichSpan_links]
    by_cases h : isElasticTransaction s <;>
      simp [h, enabledConfig, partitionChildLinks_fst]
  · rw [EnrichSpan_attributes]
    by_cases h : isElasticTransaction s <;>
    by_cases hf : s.links.filter (fun l => isChildLink l) = [] <;>
      simp [h, hf, enabledConfig, enrichTransaction_childIds,
        enrichElasticSpan_childIds, hempty, partitionChildLinks_snd]

/-- The `db_over_rpc` test span: peer service, RPC system/service/status
attributes and `db.system` = cassandra. -/
def spanDbRpc : Span :=
  { emptySpan with
    name := "testspan", parentSpanId := [8, 9, 10, 11, 12, 13, 14, 0],
    startTimestampNs := 3540000000000, endTimestampNs := 3600000000000,
    attributes := [("peer.service", .str "testsvc"),
      ("rpc.system", .str "grpc"), ("rpc.service", .str "cassandra.API"),
      ("rpc.grpc.status_code", .str "0"), ("db.system", .str "cassandra")] }

/-- The `db_over_rpc` span with the `db.system` attribute removed: the span on
which the RPC rule alone decides the service target. -/
def spanDbRpcNoDb : Span :=
  { spanDbRpc with
    attributes := [("peer.service", .str "testsvc"),
      ("rpc.system", .str "grpc"), ("rpc.service", .str "cassandra.API"),
      ("rpc.grpc.status_code", .str "0")] }

/-- The `db_over_http` test span: peer service, `url.full` and `db.system` =
elasticsearch. -/
def spanDbHttp : Span :=
  { emptySpan with
    name := "testspan", parentSpanId := [8, 9, 10, 11, 12, 13, 14, 0],
    startTimestampNs := 3540000000000, endTimestampNs := 3600000000000,
    attributes := [("peer.service", .str "testsvc"),
      ("url.full", .str "https://localhost:9200/index/_search?q=user.id:kimchy"),
      ("db.system", .str "elasticsearch")] }

/-- Counterexample to C3: on the `db_over_rpc` test span the database rule
does not leave the service target to the matched RPC rule — the enriched
target name is the peer service "testsvc" and the target type is the db
system "cassandra", while the same span without `db.system` (the RPC rule's
own output) gets target name "cassandra.API" (from `rpc.service`) and target
type "grpc"; the claimed identity of targets fails. -/
theorem claim3_counterexample :
    getAttr (EnrichSpan idGenW enabledConfig spanDbRpc).attributes
        "service.target.name" = some (.str "testsvc")
    ∧ getAttr (EnrichSpan idGenW enabledConfig spanDbRpcNoDb).attributes
        "service.target.name" = some (.str "cassandra.API")
    ∧ getAttr (EnrichSpan idGenW enabledConfig spanDbRpc).attributes
        "service.target.type" = some (.str "cassandra")
    ∧ getAttr (EnrichSpan idGenW enabledConfig spanDbRpcNoDb).attributes
        "service.target.type" = some (.str "grpc")
    ∧ getAttr (EnrichSpan idGenW enabledConfig spanDbRpc).attributes
          "service.target.name" ≠
        getAttr (EnrichSpan idGenW enabledConfig spanDbRpcNoDb).attributes
          "service.target.name" := by
  refine ⟨by rfl, by rfl, by rfl, by rfl, by decide⟩

/-- C3 amended: for a non-transaction span with `db.system` present the
database rule overlays type, subtype and the service target: span.type "db",
span.subtype = the db system value, service.target.type = the db system
value, and service.target.name = peer.service (the HTTP/RPC/messaging target
rules are not consulted); the destination-service resource keeps the generic
peer-service resolution.  In particular `db.system` = elasticsearch with
`url.full` set yields type "db", subtype "elasticsearch", target name and
resource both the peer service. -/
theorem claim3_db_overlay (idGen : Nat → String) (s : Span)
    (ht : isElasticTransaction s = false)
    (hdb : (extractSpanContext s).isDB = true)
    (hdbs : (extractSpanContext s).dbSystem ≠ "")
    (hpeer : (extractSpanContext s).peerService ≠ "")
    (hmsg : (extractSpanContext s).messagingDestinationName = "") :
    getAttr (EnrichSpan idGen enabledConfig s).attributes "span.type" =
      some (.str "db")
    ∧ getAttr (EnrichSpan idGen enabledConfig s).attributes "span.subtype" =
      some (.str (extractSpanContext s).dbSystem)
    ∧ getAttr (EnrichSpan idGen enabledConfig s).attributes
        "service.target.type" = some (.str (extractSpanContext s).dbSystem)
    ∧ getAttr (EnrichSpan idGen enabledConfig s).attributes
        "service.target.name" = some (.str (extractSpanContext s).peerService)
    ∧ getAttr (EnrichSpan idGen enabledConfig s).attributes
        "span.destination.service.resource" =
      some (.str (extractSpanContext s).peerService) := by
  have hts : spanTypeSubtype (extractSpanContext s) s.kind =
      ("db", (extractSpanContext s).dbSystem) := by
    simp [spanTypeSubtype, hdb]
  have htarget : serviceTarget (extractSpanContext s) =
      some ((extractSpanContext s).dbSystem,
        (extractSpanContext s).peerService) := by
    simp [serviceTarget, hdb, beqFalse hdbs]
  have hres : destinationResource (extractSpanContext s) =
      some (extractSpanContext s).peerService := by
    simp [destinationResource, hmsg, hpeer]
  refine ⟨?_, ?_, ?_, ?_, ?_⟩
  · rw [EnrichSpan_attributes]
    simp [ht, enabledConfig, enrichElasticSpan_spanType, hts]
  · rw [EnrichSpan_attributes]
    simp [ht, enabledConfig, enrichElasticSpan_spanSubtype, hts,
      beqFalse hdbs]
  · rw [EnrichSpan_attributes]
    simp [ht, enabledConfig, enrichElasticSpan_targetType, htarget]
  · rw [EnrichSpan_attributes]
    simp [ht, enabledConfig, enrichElasticSpan_targetName, htarget]
  · rw [EnrichSpan_attributes]
    simp [ht, enabledConfig, enrichElasticSpan_resource, hres]

/-- Witness for C3-amended at the `db_over_http` test span. -/
theorem claim3_witness :
    getAttr (EnrichSpan idGenW enabledConfig spanDbHttp).attributes
        "span.type" = some (.str "db")
    ∧ getAttr (EnrichSpan idGenW enabledConfig spanDbHttp).attributes
        "span.subtype" = some (.str "elasticsearch")
    ∧ getAttr (EnrichSpan idGenW enabledConfig spanDbHttp).attributes
        "service.target.name" = some (.str "testsvc") := by
  have h := claim3_db_overlay idGenW spanDbHttp (by rfl) (by rfl) (by decide)
    (by decide) (by rfl)
  exact ⟨h.1, h.2.1, h.2.2.2.1⟩

/-- A span event with every field empty. -/
def emptyEvent : SpanEvent := { name := "", timestampNs := 0, attributes := [] }

theorem mapIdxFrom_getD (f : Nat → α → β) (i : Nat) (l : List α) (j : Nat)
    (dα : α) (dβ : β) (h : j < l.length) :
    (mapIdxFrom f i l).getD j dβ = f (i + j) (l.getD j dα) := by
  induction l generalizing i j with
  | nil => exact absurd h (by simp)
  | cons a as ih =>
    cases j with
    | zero => simp [mapIdxFrom]
    | succ j =>
      have h₁ : j < as.length := by simpa using h
      have h₂ := ih (i + 1) j h₁
      simpa [mapIdxFrom, Nat.add_comm, Nat.add_assoc, Nat.add_left_comm]
        using h₂

theorem enrichSpanEvent_exception (errorId ttype : String) (parentIsTxn : Bool)
    (e : SpanEvent) (hn : e.name = "exception")
    (hm : eventStr e "exception.message" ≠ "") :
    getAttr (enrichSpanEvent errorId parentIsTxn ttype e).attributes
        "error.grouping_key" =
      some (.str (md5Hex (eventStr e "exception.type")))
    ∧ getAttr (enrichSpanEvent errorId parentIsTxn ttype e).attributes
        "error.grouping_name" = some (.str (eventStr e "exception.message"))
    ∧ (parentIsTxn = true →
        getAttr (enrichSpanEvent errorId parentIsTxn ttype e).attributes
            "transaction.sampled" = some (.bool true)
        ∧ getAttr (enrichSpanEvent errorId parentIsTxn ttype e).attributes
            "transaction.type" = some (.str ttype))
    ∧ (parentIsTxn = false →
        getAttr (enrichSpanEvent errorId parentIsTxn ttype e).attributes
            "transaction.sampled" =
          getAttr e.attributes "transaction.sampled"
        ∧ getAttr (enrichSpanEvent errorId parentIsTxn ttype e).attributes
            "transaction.type" = getAttr e.attributes "transaction.type") := by
  have hmb : (eventStr e "exception.message" != "") = true := bne_iff_ne.mpr hm
  rcases parentIsTxn <;>
    simp [enrichSpanEvent, hn, hmb, getAttr_putAttr]

/-- C7: two exception span events with identical `exception.type` but
different nonempty messages get the identical `error.grouping_key` — the hex
digest of the 128-bit MD5 content hash of `exception.type` alone — and
different `error.grouping_name` values (the messages verbatim); and
`transaction.sampled` / `transaction.type` are written onto the event iff the
owning span is classified as a transaction (otherwise those keys are left
exactly as they were on the incoming event). -/
theorem claim7_error_grouping (idGen : Nat → String) (s : Span)
    (i j : Nat) (hi : i < s.events.length) (hj : j < s.events.length)
    (t m₁ m₂ : String)
    (hn₁ : (s.events.getD i emptyEvent).name = "exception")
    (hn₂ : (s.events.getD j emptyEvent).name = "exception")
    (ht₁ : eventStr (s.events.getD i emptyEvent) "exception.type" = t)
    (ht₂ : eventStr (s.events.getD j emptyEvent) "exception.type" = t)
    (hm₁ : eventStr (s.events.getD i emptyEvent) "exception.message" = m₁)
    (hm₂ : eventStr (s.events.getD j emptyEvent) "exception.message" = m₂)
    (hne : m₁ ≠ m₂) (hne₁ : m₁ ≠ "") (hne₂ : m₂ ≠ "") :
    getAttr ((EnrichSpan idGen enabledConfig s).events.getD i
        emptyEvent).attributes "error.grouping_key" =
      getAttr ((EnrichSpan idGen enabledConfig s).events.getD j
        emptyEvent).attributes "error.grouping_key"
    ∧ getAttr ((EnrichSpan idGen enabledConfig s).events.getD i
        emptyEvent).attributes "error.grouping_key" =
      some (.str (md5Hex t))
    ∧ getAttr ((EnrichSpan idGen enabledConfig s).events.getD i
        emptyEvent).attributes "error.grouping_name" = some (.str m₁)
    ∧ getAttr ((EnrichSpan idGen enabledConfig s).events.getD j
        emptyEvent).attributes "error.grouping_name" = some (.str m₂)
    ∧ getAttr ((EnrichSpan idGen enabledConfig s).events.getD i
          emptyEvent).attributes "error.grouping_name" ≠
        getAttr ((EnrichSpan idGen enabledConfig s).events.getD j
          emptyEvent).attributes "error.grouping_name"
    ∧ (isElasticTransaction s = true →
        getAttr ((EnrichSpan idGen enabledConfig s).events.getD i
            emptyEvent).attributes "transaction.sampled" = some (.bool true)
        ∧ getAttr ((EnrichSpan idGen enabledConfig s).events.getD i
            emptyEvent).attributes "transaction.type" =
          some (.str (txnType (extractSpanContext s))))
    ∧ (isElasticTransaction s = false →
        getAttr ((EnrichSpan idGen enabledConfig s).events.getD i
            emptyEvent).attributes "transaction.sampled" =
          getAttr (s.events.getD i emptyEvent).attributes "transaction.sampled"
        ∧ getAttr ((EnrichSpan idGen enabledConfig s).events.getD i
            emptyEvent).attributes "transaction.type" =
          getAttr (s.events.getD i emptyEvent).attributes
            "transaction.type") := by
  have hev : (EnrichSpan idGen enabledConfig s).events =
      mapIdxFrom (fun n e => enrichSpanEvent (idGen n) (isElasticTransaction s)
        (txnType (extractSpanContext s)) e) 0 s.events := by
    rw [EnrichSpan_events]
    simp [enabledConfig]
  have hg₁ : (EnrichSpan idGen enabledConfig s).events.getD i emptyEvent =
      enrichSpanEvent (idGen i) (isElasticTransaction s)
        (txnType (extractSpanContext s)) (s.events.getD i emptyEvent) := by
    rw [hev, mapIdxFrom_getD _ 0 s.events i emptyEvent emptyEvent hi]
    simp
  have hg₂ : (EnrichSpan idGen enabledConfig s).events.getD j emptyEvent =
      enrichSpanEvent (idGen j) (isElasticTransaction s)
        (txnType (extractSpanContext s)) (s.events.getD j emptyEvent) := by
    rw [hev, mapIdxFrom_getD _ 0 s.events j emptyEvent emptyEvent hj]
    simp
  have he₁ := enrichSpanEvent_exception (idGen i)
    (txnType (extractSpanContext s)) (isElasticTransaction s)
    (s.events.getD i emptyEvent) hn₁ (by rw [hm₁]; exact hne₁)
  have he₂ := enrichSpanEvent_exception (idGen j)
    (txnType (extractSpanContext s)) (isElasticTransaction s)
    (s.events.getD j emptyEvent) hn₂ (by rw [hm₂]; exact hne₂)
  rw [hg₁, hg₂]
  refine ⟨?_, ?_, ?_, ?_, ?_, ?_, ?_⟩
  · rw [he₁.1, he₂.1, ht₁, ht₂]
  · rw [he₁.1, ht₁]
  · rw [he₁.2.1, hm₁]
  · rw [he₂.2.1, hm₂]
  · rw [he₁.2.1, he₂.2.1, hm₁, hm₂]
    simp [hne]
  · intro h
    exact he₁.2.2.1 h
  · intro h
    exact he₁.2.2.2 h

/-- A root span carrying two exception events with the same exception type
and different messages. -/
def spanTwoExceptions : Span :=
  { emptySpan with
    events := [
      { name := "exception", timestampNs := 0,
        attributes := [("exception.type", .str "java.net.ConnectionError"),
          ("exception.message", .str "something is wrong")] },
      { name := "exception", timestampNs := 0,
        attributes := [("exception.type", .str "java.net.ConnectionError"),
          ("exception.message", .str "something else is wrong")] }] }

/-- Witness for C7 at a root span with two exception events sharing a type
but not a message. -/
theorem claim7_witness :
    getAttr ((EnrichSpan idGenW enabledConfig spanTwoExceptions).events.getD 0
        emptyEvent).attributes "error.grouping_key" =
      getAttr ((EnrichSpan idGenW enabledConfig spanTwoExceptions).events.getD 1
        emptyEvent).attributes "error.grouping_key"
    ∧ getAttr ((EnrichSpan idGenW enabledConfig spanTwoExceptions).events.getD 0
          emptyEvent).attributes "error.grouping_name" ≠
        getAttr ((EnrichSpan idGenW enabledConfig
          spanTwoExceptions).events.getD 1 emptyEvent).attributes
          "error.grouping_name"
    ∧ getAttr ((EnrichSpan idGenW enabledConfig spanTwoExceptions).events.getD 0
        emptyEvent).attributes "transaction.sampled" = some (.bool true) := by
  have h := claim7_error_grouping idGenW spanTwoExceptions 0 1
    (by decide) (by decide) "java.net.ConnectionError" "something is wrong"
    "something else is wrong" (by rfl) (by rfl) (by rfl) (by rfl) (by rfl)
    (by rfl) (by decide) (by decide) (by decide)
  exact ⟨h.1, h.2.2.2.2.1, ((h.2.2.2.2.2.1 (by rfl)).1)⟩

end ElasticEnrich
